import Mathlib

/-!
Verification of the ZMK device-tree binding headers.

The repository consists of preprocessor headers defining symbolic integer
constants (key codes, modifier codes, mouse codes, behavior parameters) and
the matrix-coordinate packing macros RC, MATRIX_ROW, MATRIX_COL, GET_ROW and
GET_COL from dt-bindings/zmk/matrix_transform.h.  The macros are shallowly
embedded as total functions on natural numbers, mirroring their use on
non-negative device-tree integers; each #define constant becomes a Lean
definition of the same name and literal value.
-/

namespace ZmkBindings

/-- Embedding of the RC macro from matrix_transform.h line 14:
RC(row, col) is ((row) << 8 | (col)). -/
def RC (row col : Nat) : Nat := row <<< 8 ||| col

/-- Embedding of MATRIX_ROW(row), defined as ((row) << 8). -/
def MATRIX_ROW (row : Nat) : Nat := row <<< 8

/-- Embedding of MATRIX_COL(col), defined as (col). -/
def MATRIX_COL (col : Nat) : Nat := col

/-- Embedding of GET_ROW(matrix_index), defined as ((matrix_index) >> 8). -/
def GET_ROW (matrix_index : Nat) : Nat := matrix_index >>> 8

/-- Embedding of GET_COL(matrix_index), defined as ((matrix_index) & 0xFF). -/
def GET_COL (matrix_index : Nat) : Nat := matrix_index &&& 0xFF

/-! Constant tables from keys.h (letter keys and modifiers). -/

def KC_A : Nat := 0x04

def KC_LCTRL : Nat := 0xE0

def KC_LSHIFT : Nat := 0xE1

def KC_LALT : Nat := 0xE2

def KC_LGUI : Nat := 0xE3

def KC_RCTRL : Nat := 0xE4

def KC_RSHIFT : Nat := 0xE5

def KC_RALT : Nat := 0xE6

def KC_RGUI : Nat := 0xE7

/-! Constant table from mouse.h. -/

def LCLK : Nat := 0x01

def RCLK : Nat := 0x02

def MCLK : Nat := 0x03

def MOVE_UP : Nat := 0x04

def MOVE_DOWN : Nat := 0x05

def MOVE_LEFT : Nat := 0x06

def MOVE_RIGHT : Nat := 0x07

def SCROLL_UP : Nat := 0x08

def SCROLL_DOWN : Nat := 0x09

def SCROLL_LEFT : Nat := 0x0A

def SCROLL_RIGHT : Nat := 0x0B

/-! Constant tables from behaviors.h (hold-tap flavors, timing, layers). -/

def HOLD_TAP_FLAVOR_HOLD_PREFERRED : Nat := 0

def HOLD_TAP_FLAVOR_BALANCED : Nat := 1

def HOLD_TAP_FLAVOR_TAP_PREFERRED : Nat := 2

def HOLD_TAP_FLAVOR_TAP_UNLESS_INTERRUPTED : Nat := 3

def TAPPING_TERM_MS : Nat := 200

def QUICK_TAP_MS : Nat := 125

def GLOBAL_QUICK_TAP_MS : Nat := 150

def DEFAULT_LAYER : Nat := 0

def MOMENTARY_LAYER : Nat := 1

def TOGGLE_LAYER : Nat := 2

/-- The eleven mouse codes of mouse.h, in source order. -/
def mouseCodes : List Nat :=
  [LCLK, RCLK, MCLK, MOVE_UP, MOVE_DOWN, MOVE_LEFT, MOVE_RIGHT,
   SCROLL_UP, SCROLL_DOWN, SCROLL_LEFT, SCROLL_RIGHT]

/-- The eight modifier codes of keys.h, in source order. -/
def modifierCodes : List Nat :=
  [KC_LCTRL, KC_LSHIFT, KC_LALT, KC_LGUI, KC_RCTRL, KC_RSHIFT, KC_RALT, KC_RGUI]

/-- The four hold-tap flavor values of behaviors.h, in source order. -/
def holdTapFlavors : List Nat :=
  [HOLD_TAP_FLAVOR_HOLD_PREFERRED, HOLD_TAP_FLAVOR_BALANCED,
   HOLD_TAP_FLAVOR_TAP_PREFERRED, HOLD_TAP_FLAVOR_TAP_UNLESS_INTERRUPTED]

/-- The three layer-behavior-type constants of behaviors.h, in source order. -/
def layerBehaviorTypes : List Nat :=
  [DEFAULT_LAYER, MOMENTARY_LAYER, TOGGLE_LAYER]

/-- Arithmetic characterization of RC when the column fits in 8 bits:
the bitwise or of disjoint fields is plain addition. -/
theorem RC_eq_mul_add (row col : Nat) (h : col < 256) :
    RC row col = 256 * row + col := by
  have h2 : (2 : Nat) ^ 8 = 256 := by norm_num
  have hc : col < 2 ^ 8 := by rw [h2]; exact h
  unfold RC
  rw [Nat.shiftLeft_eq, Nat.mul_comm row (2 ^ 8), ← Nat.mul_add_lt_is_or hc row, h2]

end ZmkBindings

namespace ZmkBindings

/-- C1: for every row in 0..255 and column in 0..255, decoding the packed
value recovers the original pair exactly: GET_ROW (RC row col) = row and
GET_COL (RC row col) = col. -/
theorem rc_roundtrip (row col : Nat) (hrow : row ≤ 255) (hcol : col ≤ 255) :
    GET_ROW (RC row col) = row ∧ GET_COL (RC row col) = col := by
  have hc : col < 256 := Nat.lt_succ_of_le hcol
  have hrc : RC row col = 256 * row + col := RC_eq_mul_add row col hc
  have h2 : (2 : Nat) ^ 8 = 256 := by norm_num
  constructor
  · unfold GET_ROW
    rw [hrc, Nat.shiftRight_eq_div_pow, h2]
    omega
  · unfold GET_COL
    rw [hrc]
    have hff : (0xFF : Nat) = 2 ^ 8 - 1 := by norm_num
    rw [hff, Nat.and_pow_two_sub_one_eq_mod, h2]
    omega

/-- Witness for C1 at row 7, column 250. -/
theorem rc_roundtrip_witness :
    GET_ROW (RC 7 250) = 7 ∧ GET_COL (RC 7 250) = 250 :=
  rc_roundtrip 7 250 (by decide) (by decide)

/-- C2: RC returns exactly the integer (row << 8) | col, equivalently
(row * 2 ^ 8) | col, with no masking of the column. -/
theorem rc_formula (row col : Nat) :
    RC row col = row <<< 8 ||| col ∧ RC row col = (row * 2 ^ 8) ||| col := by
  refine ⟨rfl, ?_⟩
  unfold RC
  rw [Nat.shiftLeft_eq]

/-- C3: GET_ROW returns exactly packed >> 8 (that is, packed / 2 ^ 8) and
GET_COL returns exactly packed & 0xFF (that is, packed mod 2 ^ 8). -/
theorem get_formulas (packed : Nat) :
    GET_ROW packed = packed >>> 8 ∧ GET_COL packed = packed &&& 0xFF ∧
    GET_ROW packed = packed / 2 ^ 8 ∧ GET_COL packed = packed % 2 ^ 8 := by
  refine ⟨rfl, rfl, ?_, ?_⟩
  · unfold GET_ROW
    rw [Nat.shiftRight_eq_div_pow]
  · unfold GET_COL
    have hff : (0xFF : Nat) = 2 ^ 8 - 1 := by norm_num
    rw [hff, Nat.and_pow_two_sub_one_eq_mod]

/-- C4: the codec functions are total on all natural inputs (every call
yields the value of the defining formula, never an error), and a column
above 255 silently corrupts the row field: at row 0, column 256, the
decoded row is 1, not 0. -/
theorem rc_overflow_silent :
    (∀ row col, RC row col = row <<< 8 ||| col) ∧
    (∀ packed, GET_ROW packed = packed >>> 8 ∧ GET_COL packed = packed &&& 0xFF) ∧
    (∃ row col, 255 < col ∧ GET_ROW (RC row col) ≠ row) :=
  ⟨fun _ _ => rfl, fun _ => ⟨rfl, rfl⟩, 0, 256, by decide, by decide⟩

/-- Counterexample for C5: the left-shift modifier constant KC_LSHIFT is
0xE1 = 225, not 224. -/
theorem kc_lshift_ne_224 : KC_LSHIFT ≠ 224 := by decide

/-- C5 amended: KC_LSHIFT equals 225 decimal (0xE1); 224 decimal (0xE0) is
the left-control modifier KC_LCTRL. -/
theorem kc_lshift_eq_225 : KC_LSHIFT = 225 ∧ KC_LCTRL = 224 := by decide

/-- C6: KC_A equals 4, MOMENTARY_LAYER equals 1, every mouse code lies in
0x01..0x0B, every modifier code lies in 0xE0..0xE7, the hold-tap flavors
are exactly 0, 1, 2, 3 and the layer-behavior types exactly 0, 1, 2. -/
theorem constant_tables :
    KC_A = 4 ∧ MOMENTARY_LAYER = 1 ∧
    (mouseCodes.all fun c => decide (0x01 ≤ c ∧ c ≤ 0x0B)) = true ∧
    (modifierCodes.all fun c => decide (0xE0 ≤ c ∧ c ≤ 0xE7)) = true ∧
    holdTapFlavors = [0, 1, 2, 3] ∧
    layerBehaviorTypes = [0, 1, 2] := by
  refine ⟨rfl, rfl, ?_, ?_, rfl, rfl⟩ <;> decide

/-- C7: the concrete example values of the spec hold:
RC 0 0 = 0, RC 1 0 = 256, RC 0 255 = 255 and RC 2 3 = 515. -/
theorem rc_examples :
    RC 0 0 = 0 ∧ RC 1 0 = 256 ∧ RC 0 255 = 255 ∧ RC 2 3 = 515 := by
  refine ⟨?_, ?_, ?_, ?_⟩ <;> decide

/-- C8: the codec functions are deterministic pure functions of their
arguments: calls with equal arguments return equal results, and in this
embedding they read and write no state. -/
theorem codec_deterministic (r1 c1 r2 c2 p1 p2 : Nat)
    (hr : r1 = r2) (hc : c1 = c2) (hp : p1 = p2) :
    RC r1 c1 = RC r2 c2 ∧ GET_ROW p1 = GET_ROW p2 ∧ GET_COL p1 = GET_COL p2 := by
  subst hr; subst hc; subst hp
  exact ⟨rfl, rfl, rfl⟩

/-- Witness for C8 at rows 3, columns 9, packed value 777. -/
theorem codec_deterministic_witness :
    RC 3 9 = RC 3 9 ∧ GET_ROW 777 = GET_ROW 777 ∧ GET_COL 777 = GET_COL 777 :=
  codec_deterministic 3 9 3 9 777 777 rfl rfl rfl

/-- C9: for every packed value, even one never produced by RC, the decoded
column GET_COL packed is at most 255. -/
theorem get_col_le_255 (packed : Nat) : GET_COL packed ≤ 255 :=
  Nat.and_le_right

/-- C10: the auxiliary macros compose to the same packing as RC:
RC row col equals MATRIX_ROW row | MATRIX_COL col, MATRIX_COL is the
identity, and GET_ROW inverts MATRIX_ROW on every row. -/
theorem matrix_macros_compose (row col : Nat) :
    RC row col = MATRIX_ROW row ||| MATRIX_COL col ∧
    MATRIX_COL col = col ∧
    GET_ROW (MATRIX_ROW row) = row := by
  refine ⟨rfl, rfl, ?_⟩
  unfold GET_ROW MATRIX_ROW
  rw [Nat.shiftLeft_eq, Nat.shiftRight_eq_div_pow]
  exact Nat.mul_div_cancel row (by norm_num)

end ZmkBindings
